import Mathlib

/-!
Shallow embedding of the travelcheck evidence-extraction core:
`backend/app/services/ocr_service.py` (stamp-region filtering, OCR result
selection, stamp-text field extraction, date parsing, stamp validation) and
`backend/app/services/email_service.py` (flight-confirmation email parsing),
with data models from `backend/app/models/ocr_models.py` and
`backend/app/models/email_models.py`.

Python regular expressions are embedded as dedicated matchers over `List Char`
that reproduce `re.search` / `re.findall` semantics for the concrete patterns
the source uses: leftmost match wins, greedy quantifiers with backtracking are
enumerated in the regex engine's preference order, and `re.findall` scans
non-overlapping matches left to right.
-/

namespace TravelCheck

/-! ### Character classes and basic string operations (ASCII, as in the source patterns) -/

/-- Python regex `\s` for the ASCII inputs the patterns target. -/
def isSpaceChar (c : Char) : Bool :=
  c = ' ' || c = '\t' || c = '\n' || c = '\r' || c = '\x0b' || c = '\x0c'

/-- `[A-Z]` (no IGNORECASE). -/
def isUpperChar (c : Char) : Bool := 'A' ≤ c && c ≤ 'Z'

/-- `[a-z]` (no IGNORECASE). -/
def isLowerChar (c : Char) : Bool := 'a' ≤ c && c ≤ 'z'

/-- `[A-Z]` under `re.IGNORECASE`: any ASCII letter. -/
def isLetterChar (c : Char) : Bool := isUpperChar c || isLowerChar c

/-- `\d`. -/
def isDigitChar (c : Char) : Bool := '0' ≤ c && c ≤ '9'

def digitVal (c : Char) : Nat := c.toNat - '0'.toNat

/-- Python `str.lower()` on the ASCII range. -/
def pyLower (s : String) : String := String.mk (s.toList.map Char.toLower)

/-- Python `str.upper()` on the ASCII range. -/
def pyUpper (s : String) : String := String.mk (s.toList.map Char.toUpper)

/-- `needle` occurs at the head of `hay`. -/
def leadsWith : List Char → List Char → Bool
  | [], _ => true
  | _ :: _, [] => false
  | a :: as, b :: bs => a = b && leadsWith as bs

/-- Python `sub in hay` substring test. -/
def containsSub (hay sub : List Char) : Bool :=
  match hay with
  | [] => sub.isEmpty
  | _ :: t => leadsWith sub hay || containsSub t sub

def strContains (hay sub : String) : Bool := containsSub hay.toList sub.toList

/-- Python `str.title()`: a cased character following a non-cased one is
uppercased, every other cased character is lowercased (ASCII model). -/
def pyTitleGo : Bool → List Char → List Char
  | _, [] => []
  | prevAlpha, c :: cs =>
    if isLetterChar c then
      (if prevAlpha then c.toLower else c.toUpper) :: pyTitleGo true cs
    else
      c :: pyTitleGo false cs

def pyTitle (s : String) : String := String.mk (pyTitleGo false s.toList)

/-! ### Generic scanning: `re.search` and `re.findall` over step matchers

A step matcher tries to match a pattern at the head of the input and returns
`(matched characters, rest)` on success. All patterns embedded below match at
least one character, so fuel equal to the input length suffices for `scanAll`.
-/

/-- `re.search`: first (leftmost) match in the input, if any. -/
def scanFirst (step : List Char → Option (List Char × List Char)) :
    List Char → Option String
  | [] => none
  | c :: cs =>
    match step (c :: cs) with
    | some (m, _) => some (String.mk m)
    | none => scanFirst step cs

/-- `re.findall`: all non-overlapping matches, scanning left to right. -/
def scanAll (step : List Char → Option (List Char × List Char)) :
    Nat → List Char → List String
  | 0, _ => []
  | _ + 1, [] => []
  | fuel + 1, c :: cs =>
    match step (c :: cs) with
    | some (m, rest) => String.mk m :: scanAll step fuel rest
    | none => scanAll step fuel cs

def findall (step : List Char → Option (List Char × List Char)) (s : String) :
    List String :=
  scanAll step s.toList.length s.toList

def search (step : List Char → Option (List Char × List Char)) (s : String) :
    Option String :=
  scanFirst step s.toList

/-- Exactly `n` characters satisfying `p`; returns `(taken, rest)`. -/
def grab (p : Char → Bool) : Nat → List Char → Option (List Char × List Char)
  | 0, cs => some ([], cs)
  | _ + 1, [] => none
  | n + 1, c :: cs =>
    if p c then (grab p n cs).map (fun t => (c :: t.1, t.2)) else none

/-- Case-insensitive literal match, preserving the original characters. -/
def matchLitCI : List Char → List Char → Option (List Char × List Char)
  | [], cs => some ([], cs)
  | _ :: _, [] => none
  | l :: ls, c :: cs =>
    if l.toLower = c.toLower then
      (matchLitCI ls cs).map (fun t => (c :: t.1, t.2))
    else none

/-- Ordered alternation of case-insensitive literals, as in a regex `(A|B|…)`
group: at one position the alternatives are tried in pattern order. -/
def altStepCI (alts : List String) (cs : List Char) :
    Option (List Char × List Char) :=
  match alts with
  | [] => none
  | a :: rest => matchLitCI a.toList cs <|> altStepCI rest cs

/-! ### Pattern step matchers for the concrete regexes in the source -/

/-- One backtracking branch of the date pattern (1–2 digits, slash-or-hyphen,
1–2 digits, slash-or-hyphen, 2–4 digits) with the three digit groups taking
`a`, `b`, `c` characters. -/
def tryDate (a b c : Nat) (cs : List Char) : Option (List Char × List Char) := do
  let (d1, r1) ← grab isDigitChar a cs
  let (s1, r2) ← grab (fun ch => ch = '/' || ch = '-') 1 r1
  let (d2, r3) ← grab isDigitChar b r2
  let (s2, r4) ← grab (fun ch => ch = '/' || ch = '-') 1 r3
  let (d3, r5) ← grab isDigitChar c r4
  some (d1 ++ s1 ++ d2 ++ s2 ++ d3, r5)

/-- The date regex of the source (digits separated by slash or hyphen):
greedy branches in backtracking order. -/
def dateStep (cs : List Char) : Option (List Char × List Char) :=
  tryDate 2 2 4 cs <|> tryDate 2 2 3 cs <|> tryDate 2 2 2 cs <|>
  tryDate 2 1 4 cs <|> tryDate 2 1 3 cs <|> tryDate 2 1 2 cs <|>
  tryDate 1 2 4 cs <|> tryDate 1 2 3 cs <|> tryDate 1 2 2 cs <|>
  tryDate 1 1 4 cs <|> tryDate 1 1 3 cs <|> tryDate 1 1 2 cs

/-- `([A-Z]{3})` without IGNORECASE (stamp airport code). -/
def airportStep (cs : List Char) : Option (List Char × List Char) :=
  grab isUpperChar 3 cs

/-- `([A-Z]{3})` under IGNORECASE (email airport code). -/
def airportStepCI (cs : List Char) : Option (List Char × List Char) :=
  grab isLetterChar 3 cs

/-- One branch of the flight-number pattern with `l` letters, `w` whitespace
characters and `d` digits. -/
def tryFlight (l w d : Nat) (cs : List Char) : Option (List Char × List Char) := do
  let (ls, r1) ← grab isLetterChar l cs
  let (ws, r2) ← grab isSpaceChar w r1
  let (ds, r3) ← grab isDigitChar d r2
  some (ls ++ ws ++ ds, r3)

/-- `([A-Z]{2,3}\s?\d{3,4})` under IGNORECASE: branches in backtracking order. -/
def flightStep (cs : List Char) : Option (List Char × List Char) :=
  tryFlight 3 1 4 cs <|> tryFlight 3 1 3 cs <|> tryFlight 3 0 4 cs <|>
  tryFlight 3 0 3 cs <|> tryFlight 2 1 4 cs <|> tryFlight 2 1 3 cs <|>
  tryFlight 2 0 4 cs <|> tryFlight 2 0 3 cs

/-- The `\d{1,2}:\d{2}` core of the time pattern with `a` leading digits. -/
def tryTimeBase (a : Nat) (cs : List Char) : Option (List Char × List Char) := do
  let (d1, r1) ← grab isDigitChar a cs
  let (c1, r2) ← grab (fun ch => ch = ':') 1 r1
  let (d2, r3) ← grab isDigitChar 2 r2
  some (d1 ++ c1 ++ d2, r3)

/-- The optional `\s?(?:AM|PM)?` tail of the time pattern, greedy. -/
def timeSuffix (cs : List Char) : List Char × List Char :=
  match grab isSpaceChar 1 cs with
  | some (w, r) =>
    match matchLitCI "AM".toList r with
    | some (m, r2) => (w ++ m, r2)
    | none =>
      match matchLitCI "PM".toList r with
      | some (m, r2) => (w ++ m, r2)
      | none => (w, r)
  | none =>
    match matchLitCI "AM".toList cs with
    | some (m, r2) => (m, r2)
    | none =>
      match matchLitCI "PM".toList cs with
      | some (m, r2) => (m, r2)
      | none => ([], cs)

/-- `(\d{1,2}:\d{2}\s?(?:AM|PM)?)` under IGNORECASE. -/
def timeStep (cs : List Char) : Option (List Char × List Char) :=
  match tryTimeBase 2 cs <|> tryTimeBase 1 cs with
  | none => none
  | some (m, r) =>
    let t := timeSuffix r
    some (m ++ t.1, t.2)

/-- The stamp country vocabulary, in the source's alternation order. -/
def countryAlts : List String :=
  ["UNITED STATES", "CANADA", "MEXICO", "UNITED KINGDOM", "FRANCE",
   "GERMANY", "ITALY", "SPAIN", "JAPAN", "CHINA", "AUSTRALIA"]

/-- The email airline vocabulary, in the source's alternation order. -/
def airlineAlts : List String :=
  ["American", "Delta", "United", "Southwest", "JetBlue", "Alaska",
   "Spirit", "Frontier"]

/-- The greedy `(?:\s+[A-Z][a-z]+)*` tail of the city pattern: repeat whole
iterations as long as they match; a partially matching iteration is dropped. -/
def cityGroups : Nat → List Char → List Char × List Char
  | 0, cs => ([], cs)
  | fuel + 1, cs =>
    match cs with
    | [] => ([], cs)
    | c0 :: _ =>
      if isSpaceChar c0 then
        let ws := cs.takeWhile isSpaceChar
        let r1 := cs.dropWhile isSpaceChar
        match r1 with
        | c :: r2 =>
          if isUpperChar c then
            match r2 with
            | c2 :: _ =>
              if isLowerChar c2 then
                let lo := r2.takeWhile isLowerChar
                let r3 := r2.dropWhile isLowerChar
                let more := cityGroups fuel r3
                (ws ++ c :: lo ++ more.1, more.2)
              else ([], cs)
            | [] => ([], cs)
          else ([], cs)
        | [] => ([], cs)
      else ([], cs)

/-- `([A-Z][a-z]+(?:\s+[A-Z][a-z]+)*)` (no IGNORECASE). -/
def cityStep (cs : List Char) : Option (List Char × List Char) :=
  match cs with
  | [] => none
  | c :: r1 =>
    if isUpperChar c then
      match r1 with
      | c2 :: _ =>
        if isLowerChar c2 then
          let lo := r1.takeWhile isLowerChar
          let r2 := r1.dropWhile isLowerChar
          let more := cityGroups r2.length r2
          some (c :: lo ++ more.1, more.2)
        else none
      | [] => none
    else none

/-! ### `datetime.strptime` for the six formats of `_parse_date`

CPython's `_strptime` compiles each directive to a regex fragment:
`%m ↦ (1[0-2]|0[1-9]|[1-9])`, `%d ↦ (3[01]|[12]\d|0[1-9]|[1-9])`,
`%y ↦ (\d\d)` (00–68 mapped to 20xx, 69–99 to 19xx), `%Y ↦ (\d\d\d\d)`;
the whole input must be consumed, and the resulting numbers must form a valid
`datetime` (real calendar day, year at least 1), otherwise `ValueError`. -/

/-- A numeric token alternative: parses a value at the head of the input. -/
abbrev TokAlts := List (List Char → Option (Nat × List Char))

def monthAlts : TokAlts :=
  [ fun cs => match cs with
      | c1 :: c2 :: r =>
        if c1 = '1' && ('0' ≤ c2 && c2 ≤ '2') then some (10 + digitVal c2, r)
        else none
      | _ => none,
    fun cs => match cs with
      | c1 :: c2 :: r =>
        if c1 = '0' && ('1' ≤ c2 && c2 ≤ '9') then some (digitVal c2, r)
        else none
      | _ => none,
    fun cs => match cs with
      | c :: r => if '1' ≤ c && c ≤ '9' then some (digitVal c, r) else none
      | _ => none ]

def dayAlts : TokAlts :=
  [ fun cs => match cs with
      | c1 :: c2 :: r =>
        if c1 = '3' && ('0' ≤ c2 && c2 ≤ '1') then some (30 + digitVal c2, r)
        else none
      | _ => none,
    fun cs => match cs with
      | c1 :: c2 :: r =>
        if ('1' ≤ c1 && c1 ≤ '2') && isDigitChar c2 then
          some (10 * digitVal c1 + digitVal c2, r)
        else none
      | _ => none,
    fun cs => match cs with
      | c1 :: c2 :: r =>
        if c1 = '0' && ('1' ≤ c2 && c2 ≤ '9') then some (digitVal c2, r)
        else none
      | _ => none,
    fun cs => match cs with
      | c :: r => if '1' ≤ c && c ≤ '9' then some (digitVal c, r) else none
      | _ => none ]

/-- `%Y`: exactly four digits. -/
def yearAlts4 : TokAlts :=
  [ fun cs => match cs with
      | a :: b :: c :: d :: r =>
        if isDigitChar a && isDigitChar b && isDigitChar c && isDigitChar d then
          some (1000 * digitVal a + 100 * digitVal b + 10 * digitVal c +
            digitVal d, r)
        else none
      | _ => none ]

/-- `%y`: exactly two digits, mapped through the POSIX pivot (00–68 → 2000s). -/
def yearAlts2 : TokAlts :=
  [ fun cs => match cs with
      | a :: b :: r =>
        if isDigitChar a && isDigitChar b then
          let v := 10 * digitVal a + digitVal b
          some (if v ≤ 68 then 2000 + v else 1900 + v, r)
        else none
      | _ => none ]

/-- Try token alternatives in order; on success run the continuation, and on
its failure backtrack to the next alternative (regex alternation semantics). -/
def tryAlts {α : Type} (alts : TokAlts) (cs : List Char)
    (k : Nat → List Char → Option α) : Option α :=
  match alts with
  | [] => none
  | a :: rest =>
    (match a cs with
     | some (v, r) => k v r
     | none => none) <|> tryAlts rest cs k

/-- A whole three-token format `tok1 sep tok2 sep tok3`, full-input match. -/
def parseFmt (t1 t2 t3 : TokAlts) (sep : Char) (cs : List Char) :
    Option (Nat × Nat × Nat) :=
  tryAlts t1 cs fun v1 r1 =>
    match r1 with
    | c :: r2 =>
      if c = sep then
        tryAlts t2 r2 fun v2 r3 =>
          match r3 with
          | c2 :: r4 =>
            if c2 = sep then
              tryAlts t3 r4 fun v3 r5 =>
                if r5.isEmpty then some (v1, v2, v3) else none
            else none
          | [] => none
      else none
    | [] => none

/-- `datetime.date` value (parsed stamps carry midnight time-of-day, so the
date triple determines the `datetime` ordering used by the validator). -/
structure PyDate where
  year : Nat
  month : Nat
  day : Nat
deriving DecidableEq, Repr

def isLeap (y : Nat) : Bool := y % 4 = 0 && (y % 100 ≠ 0 || y % 400 = 0)

def daysInMonth (y m : Nat) : Nat :=
  if m = 2 then (if isLeap y then 29 else 28)
  else if m = 4 || m = 6 || m = 9 || m = 11 then 30
  else 31

/-- The `datetime` constructor's validity check. -/
def mkDatetime (y m d : Nat) : Option PyDate :=
  if 1 ≤ y && y ≤ 9999 && 1 ≤ m && m ≤ 12 && 1 ≤ d && d ≤ daysInMonth y m then
    some ⟨y, m, d⟩
  else none

/-- `OCRService._parse_date`: try the six formats in order; the first one that
both matches the whole string and yields a valid calendar date wins. -/
def parse_date (s : String) : Option PyDate :=
  let cs := s.toList
  ((parseFmt monthAlts dayAlts yearAlts4 '/' cs).bind fun v =>
      mkDatetime v.2.2 v.1 v.2.1) <|>
  ((parseFmt monthAlts dayAlts yearAlts2 '/' cs).bind fun v =>
      mkDatetime v.2.2 v.1 v.2.1) <|>
  ((parseFmt dayAlts monthAlts yearAlts4 '/' cs).bind fun v =>
      mkDatetime v.2.2 v.2.1 v.1) <|>
  ((parseFmt dayAlts monthAlts yearAlts2 '/' cs).bind fun v =>
      mkDatetime v.2.2 v.2.1 v.1) <|>
  ((parseFmt yearAlts4 monthAlts dayAlts '-' cs).bind fun v =>
      mkDatetime v.1 v.2.1 v.2.2) <|>
  ((parseFmt dayAlts monthAlts yearAlts4 '-' cs).bind fun v =>
      mkDatetime v.2.2 v.2.1 v.1)

/-! ### `OCRService._parse_stamp_text` -/

/-- The `extracted_data` dict built by `_parse_stamp_text`. A `none` field is
an absent key (the `stamp_type` key is assigned on every path). -/
structure StampFields where
  entry_date : Option PyDate
  exit_date : Option PyDate
  country : Option String
  city : Option String
  stamp_type : Option String
  airport_code : Option String
deriving DecidableEq, Repr

/-- Truthiness of the `extracted_data` dict: at least one key present. -/
def fieldsNonempty (f : StampFields) : Bool :=
  f.entry_date.isSome || f.exit_date.isSome || f.country.isSome ||
  f.city.isSome || f.stamp_type.isSome || f.airport_code.isSome

/-- `OCRService._parse_stamp_text`, line for line: dates via the date regex
(first match, assigned to entry or exit depending on direction keywords,
defaulting to entry), country via the fixed vocabulary (IGNORECASE, then
`.title()`), city via the title-cased-run regex (then `.title()`), stamp type
from the direction keywords in the uppercased text (defaulting to
`"unknown"`), airport code as the first three consecutive uppercase letters;
the dict is returned only if non-empty. -/
def parse_stamp_text (text : String) : Option StampFields :=
  let up := pyUpper text
  let entryKw := strContains up "ENTRY" || strContains up "ARRIVAL"
  let exitKw := strContains up "EXIT" || strContains up "DEPARTURE"
  let dates := findall dateStep text
  let ed : Option PyDate × Option PyDate :=
    match dates with
    | [] => (none, none)
    | d :: _ =>
      if entryKw then (parse_date d, none)
      else if exitKw then (none, parse_date d)
      else (parse_date d, none)
  let country := (search (altStepCI countryAlts) text).map pyTitle
  let city := (search cityStep text).map pyTitle
  let stype := if entryKw then "entry" else if exitKw then "exit" else "unknown"
  let airport := search airportStep text
  let f : StampFields :=
    { entry_date := ed.1, exit_date := ed.2, country := country, city := city,
      stamp_type := some stype, airport_code := airport }
  if fieldsNonempty f then some f else none

/-! ### `PassportStamp` model, OCR result selection and stamp validation -/

/-- `app.models.ocr_models.PassportStamp` (pydantic model). Confidences are
rationals: the source's float confidences are means of integer per-word
scores, exactly representable. -/
structure PassportStamp where
  text : String
  confidence : ℚ
  country : Option String
  city : Option String
  entry_date : Option PyDate
  exit_date : Option PyDate
  stamp_type : Option String
  airport_code : Option String
  raw_data : Option StampFields
deriving DecidableEq, Repr

/-- One element of `ocr_results` in `_process_stamp`: stripped text, mean
confidence on the 0–100 scale, and the tesseract config that produced it. -/
structure OcrResult where
  text : String
  confidence : ℚ
  config : String
deriving DecidableEq, Repr

/-- One step of Python `max(ocr_results, key=confidence)`: the accumulator is
kept unless the next element is strictly greater (first maximum wins). -/
def stepMax (acc x : OcrResult) : OcrResult :=
  if acc.confidence < x.confidence then x else acc

/-- `max(ocr_results, key=lambda x: x['confidence'])`, `none` on empty input. -/
def bestResult : List OcrResult → Option OcrResult
  | [] => none
  | r :: rs => some (rs.foldl stepMax r)

/-- `OCRService._process_stamp` from the point where `ocr_results` has been
collected (the OCR passes themselves are environment input): select the best
result by confidence, discard the region when the best confidence is below
`threshold * 100` (the configured `OCR_CONFIDENCE_THRESHOLD`, default `0.7`),
otherwise parse the text and build a `PassportStamp`. -/
def process_stamp (threshold : ℚ) (ocr_results : List OcrResult) :
    Option PassportStamp :=
  match bestResult ocr_results with
  | none => none
  | some best =>
    if best.confidence < threshold * 100 then none
    else
      match parse_stamp_text best.text with
      | none => none
      | some sd =>
        some { text := best.text, confidence := best.confidence / 100,
               country := sd.country, city := sd.city,
               entry_date := sd.entry_date, exit_date := sd.exit_date,
               stamp_type := sd.stamp_type, airport_code := none,
               raw_data := some sd }

/-- The size-and-aspect filter of `_detect_stamp_regions`:
`50 < w < 300 and 30 < h < 150` then `1.5 < w / h < 5.0`. The float ratio
comparisons are exact rational comparisons (`3 * h < 2 * w` and `w < 5 * h`)
for the integer ranges involved. -/
def regionFilter (w h : Nat) : Bool :=
  if 50 < w && w < 300 && (30 < h && h < 150) then
    3 * h < 2 * w && w < 5 * h
  else false

/-- `OCRService._detect_stamp_regions` downstream of `cv2.findContours`: the
contours' bounding rectangles `(x, y, w, h)` are environment input, and the
detector keeps those passing the filter, in order. -/
def detect_stamp_regions (boxes : List (Nat × Nat × Nat × Nat)) :
    List (Nat × Nat × Nat × Nat) :=
  boxes.filter fun b => regionFilter b.2.2.1 b.2.2.2

/-- A successfully loaded grayscale document image, abstracted to what the
pipeline reads from it: the bounding boxes `cv2.findContours` finds, and the
OCR results tesseract produces for each cropped region (environment input). -/
structure GrayImage where
  contourBoxes : List (Nat × Nat × Nat × Nat)
  ocrAt : Nat × Nat × Nat × Nat → List OcrResult

/-- `OCRService.process_passport_image`: `none` input models an unreadable
image (`cv2.imread` returned `None`), raising `ValueError`; otherwise detect
regions and collect the stamps of the regions whose processing succeeds. -/
def process_passport_image (threshold : ℚ) (image : Option GrayImage) :
    Except String (List PassportStamp) :=
  match image with
  | none => Except.error "Could not load image"
  | some img =>
    Except.ok ((detect_stamp_regions img.contourBoxes).filterMap fun r =>
      process_stamp threshold (img.ocrAt r))

/-- Chronological key of a parsed stamp `datetime` (all parsed dates carry
midnight time-of-day, so comparing day keys agrees with Python's `datetime`
order in every comparison the validator makes). -/
def dateKey (d : PyDate) : Nat := d.year * 10000 + d.month * 100 + d.day

/-- `stamp.entry_date > datetime.now()` for an optional date. -/
def futureDate (now : PyDate) : Option PyDate → Bool
  | none => false
  | some d => dateKey now < dateKey d

/-- `stamp.entry_date > stamp.exit_date` when both are present. -/
def entryAfterExit : Option PyDate → Option PyDate → Bool
  | some e, some x => dateKey x < dateKey e
  | _, _ => false

/-- Python truthiness of `not stamp.country`: absent or empty string. -/
def optStrFalsy : Option String → Bool
  | none => true
  | some s => s = ""

/-- `OCRService.validate_stamp_data`, with `datetime.now()` passed explicitly
as `now`: reject when no date and no country, when any date is in the future,
or when the entry date is after the exit date; accept otherwise. -/
def validate_stamp_data (now : PyDate) (stamp : PassportStamp) : Bool :=
  if stamp.entry_date.isNone && stamp.exit_date.isNone &&
      optStrFalsy stamp.country then false
  else if futureDate now stamp.entry_date then false
  else if futureDate now stamp.exit_date then false
  else if entryAfterExit stamp.entry_date stamp.exit_date then false
  else true

/-! ### Email models and `EmailService.parse_flight_confirmation` -/

/-- `app.models.email_models.EmailMessage`. `received_at` is an abstract
timestamp; the parser never reads it. -/
structure EmailMessage where
  message_id : String
  subject : String
  sender : String
  received_at : Nat
  body : String
  parsed_data : Option String
deriving DecidableEq, Repr

/-- A value of the `extracted_data` dict in `parse_flight_confirmation`:
`matches[0] if len(matches) == 1 else matches`. -/
inductive FVal where
  | one : String → FVal
  | many : List String → FVal
deriving DecidableEq, Repr

/-- `matches[0] if len(matches) == 1 else matches`, absent on no match. -/
def firstOrAll : List String → Option FVal
  | [] => none
  | [s] => some (FVal.one s)
  | l => some (FVal.many l)

/-- `app.models.email_models.FlightConfirmation` (pydantic model). Field
values keep the string-or-list shape the parser passes them. -/
structure FlightConfirmation where
  email_id : String
  flight_number : Option FVal
  departure_date : Option FVal
  departure_time : Option FVal
  arrival_date : Option FVal
  arrival_time : Option FVal
  departure_airport : Option FVal
  arrival_airport : Option FVal
  airline : Option FVal
  passenger_name : Option FVal
  booking_reference : Option FVal
  raw_data : List (String × FVal)
deriving DecidableEq, Repr

/-- The fixed confirmation keyword list of `parse_flight_confirmation`. -/
def confirmation_keywords : List String :=
  ["flight confirmation", "booking confirmation", "itinerary",
   "flight details", "ticket confirmation", "boarding pass"]

/-- The classification step: some keyword occurs in the lowercased subject or
the lowercased body. -/
def is_confirmation (email : EmailMessage) : Bool :=
  confirmation_keywords.any fun k =>
    strContains (pyLower email.subject) k || strContains (pyLower email.body) k

/-- One `extracted_data` dict entry, absent when the pattern had no match. -/
def optEntry (k : String) : Option FVal → List (String × FVal)
  | some v => [(k, v)]
  | none => []

/-- `EmailService.parse_flight_confirmation`: run the five field patterns over
the body (all under IGNORECASE), classify by keywords over subject or body,
and return a candidate only when classification passed and the dict is
non-empty. The `airport_code` keyword argument has no corresponding
`FlightConfirmation` field, so pydantic drops it (default `Extra.ignore`): the
airport code survives only inside `raw_data`. -/
def parse_flight_confirmation (email : EmailMessage) :
    Option FlightConfirmation :=
  let fn := firstOrAll (findall flightStep email.body)
  let dd := firstOrAll (findall dateStep email.body)
  let dt := firstOrAll (findall timeStep email.body)
  let ac := firstOrAll (findall airportStepCI email.body)
  let al := firstOrAll (findall (altStepCI airlineAlts) email.body)
  if is_confirmation email &&
      (fn.isSome || dd.isSome || dt.isSome || ac.isSome || al.isSome) then
    some { email_id := email.message_id
           flight_number := fn
           departure_date := dd
           departure_time := dt
           arrival_date := none
           arrival_time := none
           departure_airport := none
           arrival_airport := none
           airline := al
           passenger_name := none
           booking_reference := none
           raw_data := optEntry "flight_number" fn ++
             optEntry "departure_date" dd ++ optEntry "departure_time" dt ++
             optEntry "airport_code" ac ++ optEntry "airline" al }
  else none

/-- A list value (two or more findall matches) where the pydantic model
declares `Optional[str]`. -/
def isManyF : Option FVal → Bool
  | some (FVal.many _) => true
  | _ => false

/-- `EmailService.parse_flight_confirmation` end to end, including the
`FlightConfirmation` constructor's pydantic validation:
`parse_flight_confirmation` above builds the keyword-argument values the code
passes; the constructor then rejects a list value for the declared
`Optional[str]` fields `flight_number`, `departure_date`, `departure_time`
and `airline` with a `ValidationError` (raised, not returned), while the
`airport_code` keyword argument has no model field and is dropped without
validation (pydantic's default extra-ignore), and `raw_data` is
`Dict[str, Any]`, accepting lists. -/
def parse_flight_confirmation_checked (email : EmailMessage) :
    Except String (Option FlightConfirmation) :=
  match parse_flight_confirmation email with
  | none => Except.ok none
  | some c =>
    if isManyF c.flight_number || isManyF c.departure_date ||
        isManyF c.departure_time || isManyF c.airline then
      Except.error "ValidationError"
    else Except.ok (some c)

/-! ### Helper lemmas -/

theorem regionFilter_eq_true (w h : Nat) :
    regionFilter w h = true ↔
      50 < w ∧ w < 300 ∧ 30 < h ∧ h < 150 ∧ 3 * h < 2 * w ∧ w < 5 * h := by
  unfold regionFilter
  split <;> simp_all

theorem futureDate_eq_true (now : PyDate) (o : Option PyDate) :
    futureDate now o = true ↔ ∃ d, o = some d ∧ dateKey now < dateKey d := by
  cases o <;> simp [futureDate]

theorem entryAfterExit_eq_true (a b : Option PyDate) :
    entryAfterExit a b = true ↔
      ∃ e x, a = some e ∧ b = some x ∧ dateKey x < dateKey e := by
  cases a <;> cases b <;> simp [entryAfterExit]

theorem optStrFalsy_eq_true (o : Option String) :
    optStrFalsy o = true ↔ o = none ∨ o = some "" := by
  cases o <;> simp [optStrFalsy]

theorem validate_eq (now : PyDate) (stamp : PassportStamp) :
    validate_stamp_data now stamp =
      !((stamp.entry_date.isNone && stamp.exit_date.isNone &&
          optStrFalsy stamp.country) ||
        futureDate now stamp.entry_date || futureDate now stamp.exit_date ||
        entryAfterExit stamp.entry_date stamp.exit_date) := by
  obtain ⟨t, cf, co, ci, en, ex, st, ap, rd⟩ := stamp
  simp only [validate_stamp_data]
  cases h1 : (en.isNone && ex.isNone && optStrFalsy co) <;>
    cases h2 : futureDate now en <;>
      cases h3 : futureDate now ex <;>
        cases h4 : entryAfterExit en ex <;>
          simp_all

theorem foldl_stepMax_ge (rs : List OcrResult) (acc : OcrResult) :
    acc.confidence ≤ (rs.foldl stepMax acc).confidence ∧
    ∀ r ∈ rs, r.confidence ≤ (rs.foldl stepMax acc).confidence := by
  induction rs generalizing acc with
  | nil => simp
  | cons x xs ih =>
    have h := ih (stepMax acc x)
    have hax : acc.confidence ≤ (stepMax acc x).confidence := by
      unfold stepMax; split
      · exact le_of_lt (by assumption)
      · exact le_refl _
    have hx : x.confidence ≤ (stepMax acc x).confidence := by
      unfold stepMax; split
      · exact le_refl _
      · exact le_of_not_lt (by assumption)
    simp only [List.foldl_cons]
    refine ⟨le_trans hax h.1, ?_⟩
    intro r hr
    rcases List.mem_cons.mp hr with rfl | hr2
    · exact le_trans hx h.1
    · exact h.2 r hr2

theorem firstOrAll_isSome (l : List String) :
    (firstOrAll l).isSome = true ↔ l ≠ [] := by
  match l with
  | [] => simp [firstOrAll]
  | [a] => simp [firstOrAll]
  | a :: b :: t => simp [firstOrAll]

theorem isManyF_firstOrAll (l : List String) :
    isManyF (firstOrAll l) = true ↔ 2 ≤ l.length := by
  match l with
  | [] => simp [firstOrAll, isManyF]
  | [a] => simp [firstOrAll, isManyF]
  | a :: b :: t => simp [firstOrAll, isManyF]

/-- `parse_flight_confirmation` with its local bindings expanded. -/
theorem parse_flight_confirmation_eq (email : EmailMessage) :
    parse_flight_confirmation email =
      (if (is_confirmation email &&
          ((firstOrAll (findall flightStep email.body)).isSome ||
           (firstOrAll (findall dateStep email.body)).isSome ||
           (firstOrAll (findall timeStep email.body)).isSome ||
           (firstOrAll (findall airportStepCI email.body)).isSome ||
           (firstOrAll (findall (altStepCI airlineAlts) email.body)).isSome))
          then
        some { email_id := email.message_id
               flight_number := firstOrAll (findall flightStep email.body)
               departure_date := firstOrAll (findall dateStep email.body)
               departure_time := firstOrAll (findall timeStep email.body)
               arrival_date := none
               arrival_time := none
               departure_airport := none
               arrival_airport := none
               airline := firstOrAll (findall (altStepCI airlineAlts)
                 email.body)
               passenger_name := none
               booking_reference := none
               raw_data := optEntry "flight_number"
                   (firstOrAll (findall flightStep email.body)) ++
                 optEntry "departure_date"
                   (firstOrAll (findall dateStep email.body)) ++
                 optEntry "departure_time"
                   (firstOrAll (findall timeStep email.body)) ++
                 optEntry "airport_code"
                   (firstOrAll (findall airportStepCI email.body)) ++
                 optEntry "airline"
                   (firstOrAll (findall (altStepCI airlineAlts) email.body)) }
      else none) := rfl

/-! ### Claim theorems -/

set_option maxRecDepth 2048

/-- C1 (counterexample): on the text `"ENTRY USA LOS ANGELES 03/14/2023 LAX"`
the Field Extractor does NOT yield country `"United States"`, any city, or
airport code `"LAX"`: "USA" is not in the country vocabulary, the all-caps
text has no title-cased run, and the first three consecutive uppercase
letters are `"ENT"` (from "ENTRY"), not `"LAX"`. -/
theorem c1_scenario_counterexample :
    (parse_stamp_text "ENTRY USA LOS ANGELES 03/14/2023 LAX").map
      (fun f => (f.country, f.city, f.airport_code)) =
    some (none, none, some "ENT") := by rfl

/-- C1 (amended): on `"ENTRY USA LOS ANGELES 03/14/2023 LAX"` the Field
Extractor yields a candidate with entry_date 2023-03-14 and stamp_type
`"entry"` as claimed, but with airport_code `"ENT"` (the leftmost three
consecutive uppercase letters), no country (the vocabulary has
"UNITED STATES", not "USA") and no city (the city pattern needs lowercase
letters). -/
theorem c1_scenario_amended :
    parse_stamp_text "ENTRY USA LOS ANGELES 03/14/2023 LAX" =
    some { entry_date := some ⟨2023, 3, 14⟩, exit_date := none,
           country := none, city := none, stamp_type := some "entry",
           airport_code := some "ENT" } := by rfl

/-- C2 (counterexample): the empty text has no extractable date, country,
city, direction or airport code, yet the Field Extractor returns a candidate
(with only `stamp_type = "unknown"`) rather than none: the `stamp_type` key
is assigned on every path, so the extracted dict is never empty. -/
theorem c2_none_counterexample :
    parse_stamp_text "" =
    some { entry_date := none, exit_date := none, country := none,
           city := none, stamp_type := some "unknown",
           airport_code := none } := by rfl

/-- C2 (amended): the Field Extractor never returns none — for every input
text it returns a candidate, because `stamp_type` is always populated
(`"unknown"` when no direction keyword occurs), which makes the extracted
dict non-empty on every path. -/
theorem c2_always_some (text : String) :
    (parse_stamp_text text).isSome = true := by
  simp [parse_stamp_text, fieldsNonempty]

/-- C3 (counterexample): an email with subject
`"Your Delta Flight Confirmation"` whose body contains `"DL 1234"` and
`"03/14/2023"` but not the word "Delta" is classified as a confirmation with
flight_number `"DL 1234"`, yet its airline is none, not "Delta": the airline
vocabulary is matched against the body only, never the subject. -/
theorem c3_email_counterexample :
    (parse_flight_confirmation
      { message_id := "e1", subject := "Your Delta Flight Confirmation",
        sender := "noreply@example.com", received_at := 0,
        body := "DL 1234 03/14/2023", parsed_data := none }).map
      (fun c => (c.flight_number, c.airline)) =
    some (some (FVal.one "DL 1234"), none) := by rfl

/-- C3 (amended): with subject `"Your Delta Flight Confirmation"` and a body
containing `"DL 1234"` and `"03/14/2023"`, the email is classified as a
confirmation and flight_number matches `"DL 1234"`; airline = "Delta" holds
only when the body itself contains an airline name, e.g. for body
`"Delta flight DL 1234 on 03/14/2023"`. -/
theorem c3_email_amended :
    parse_flight_confirmation
      { message_id := "e1", subject := "Your Delta Flight Confirmation",
        sender := "noreply@example.com", received_at := 0,
        body := "Delta flight DL 1234 on 03/14/2023", parsed_data := none } =
    some { email_id := "e1", flight_number := some (FVal.one "DL 1234"),
           departure_date := some (FVal.one "03/14/2023"),
           departure_time := none, arrival_date := none, arrival_time := none,
           departure_airport := none, arrival_airport := none,
           airline := some (FVal.one "Delta"), passenger_name := none,
           booking_reference := none,
           raw_data := [("flight_number", FVal.one "DL 1234"),
             ("departure_date", FVal.one "03/14/2023"),
             ("airport_code", FVal.many ["Del", "fli", "ght"]),
             ("airline", FVal.one "Delta")] } := by rfl

/-- C4 (counterexample): a 50x31 bounding box lies inside the claimed closed
intervals (width in [50,300], height in [30,150], ratio 50/31 in [1.5,5.0])
but the Region Detector excludes it: the code uses strict inequalities
(`50 < w < 300`), so boxes on the boundary are rejected. -/
theorem c4_boundary_counterexample :
    ((50 ≤ 50 ∧ 50 ≤ 300 ∧ 30 ≤ 31 ∧ 31 ≤ 150 ∧ 3 * 31 ≤ 2 * 50 ∧
        50 ≤ 5 * 31) ∧
     detect_stamp_regions [(0, 0, 50, 31)] = []) := by decide

/-- C4 (amended): a contour's bounding box is included in the Region
Detector's output iff its width is strictly between 50 and 300, its height
strictly between 30 and 150, and its aspect ratio width/height strictly
between 1.5 and 5.0 (as exact rational comparisons, `3h < 2w` and `w < 5h`);
in particular a 40x20 box is excluded. -/
theorem c4_region_filter_amended :
    (∀ (boxes : List (Nat × Nat × Nat × Nat)) (x y w h : Nat),
      (x, y, w, h) ∈ detect_stamp_regions boxes ↔
        ((x, y, w, h) ∈ boxes ∧
         (50 < w ∧ w < 300 ∧ 30 < h ∧ h < 150 ∧ 3 * h < 2 * w ∧
          w < 5 * h))) ∧
    detect_stamp_regions [(0, 0, 40, 20)] = [] := by
  constructor
  · intro boxes x y w h
    rw [detect_stamp_regions, List.mem_filter, regionFilter_eq_true]
  · decide

/-- C5: the Candidate Validator rejects a candidate exactly when no entry
date, no exit date, and no country were identified (a country field that is
absent or the empty string counts as not identified, matching Python
truthiness); or some extracted date is in the future relative to processing
time `now`; or both dates are present with the entry date after the exit
date. Otherwise it accepts. -/
theorem c5_validator_iff (now : PyDate) (stamp : PassportStamp) :
    validate_stamp_data now stamp = false ↔
      ((stamp.entry_date = none ∧ stamp.exit_date = none ∧
          (stamp.country = none ∨ stamp.country = some "")) ∨
       (∃ d, stamp.entry_date = some d ∧ dateKey now < dateKey d) ∨
       (∃ d, stamp.exit_date = some d ∧ dateKey now < dateKey d) ∨
       (∃ e x, stamp.entry_date = some e ∧ stamp.exit_date = some x ∧
          dateKey x < dateKey e)) := by
  rw [validate_eq]
  simp only [Bool.not_eq_false', Bool.or_eq_true, Bool.and_eq_true,
    Option.isNone_iff_eq_none, futureDate_eq_true, entryAfterExit_eq_true,
    optStrFalsy_eq_true]
  simp only [or_assoc, and_assoc]

/-- C6: when `ocr_results` for a region is non-empty, the selected best
result has the maximal confidence among all results (first maximum wins, as
with Python `max`), and if that best confidence is below
`threshold * 100` (the configured `OCR_CONFIDENCE_THRESHOLD`, default 0.7,
on the 0-100 confidence scale) then `_process_stamp` returns none: the Field
Extractor is never reached for that region. -/
theorem c6_best_confidence_threshold (threshold : ℚ)
    (ocr_results : List OcrResult) (best : OcrResult)
    (hbest : bestResult ocr_results = some best) :
    (∀ r ∈ ocr_results, r.confidence ≤ best.confidence) ∧
    (best.confidence < threshold * 100 →
      process_stamp threshold ocr_results = none) := by
  cases ocr_results with
  | nil => simp [bestResult] at hbest
  | cons r0 rest =>
    have hb : rest.foldl stepMax r0 = best := by
      simpa [bestResult] using hbest
    constructor
    · intro r hr
      have h := foldl_stepMax_ge rest r0
      rw [← hb]
      rcases List.mem_cons.mp hr with rfl | hr2
      · exact h.1
      · exact h.2 r hr2
    · intro hlt
      unfold process_stamp
      rw [hbest]
      simp [hlt]

/-- C6 (witness): for results with confidences 50 and 60 and the default
threshold 0.7, the best result is the one with confidence 60, every result's
confidence is at most 60, and since 60 < 70, no candidate is produced. -/
theorem c6_best_confidence_threshold_witness :
    (∀ r ∈ ([⟨"a", 50, "c1"⟩, ⟨"b", 60, "c2"⟩] : List OcrResult),
        r.confidence ≤ (60 : ℚ)) ∧
    ((60 : ℚ) < (7/10 : ℚ) * 100 →
      process_stamp (7/10) [⟨"a", 50, "c1"⟩, ⟨"b", 60, "c2"⟩] = none) :=
  c6_best_confidence_threshold (7/10) _ ⟨"b", 60, "c2"⟩ (by decide)

/-- The candidate-construction stage (classification plus extraction, before
the pydantic constructor validates field values) yields a record iff a
keyword occurs in the lowercased subject or body and at least one of the
five field patterns matched the body. -/
theorem parse_stage_some_iff (email : EmailMessage) :
    (∃ c, parse_flight_confirmation email = some c) ↔
      ((confirmation_keywords.any fun k =>
          strContains (pyLower email.subject) k ||
          strContains (pyLower email.body) k) = true ∧
       (findall flightStep email.body ≠ [] ∨
        findall dateStep email.body ≠ [] ∨
        findall timeStep email.body ≠ [] ∨
        findall airportStepCI email.body ≠ [] ∨
        findall (altStepCI airlineAlts) email.body ≠ [])) := by
  rw [parse_flight_confirmation_eq]
  constructor
  · rintro ⟨c, hc⟩
    split at hc
    case isTrue h =>
      rw [Bool.and_eq_true] at h
      refine ⟨h.1, ?_⟩
      have h2 := h.2
      simp only [Bool.or_eq_true, firstOrAll_isSome] at h2
      tauto
    case isFalse h => exact absurd hc (by simp)
  · rintro ⟨h1, h2⟩
    have hcond : (is_confirmation email &&
        ((firstOrAll (findall flightStep email.body)).isSome ||
         (firstOrAll (findall dateStep email.body)).isSome ||
         (firstOrAll (findall timeStep email.body)).isSome ||
         (firstOrAll (findall airportStepCI email.body)).isSome ||
         (firstOrAll (findall (altStepCI airlineAlts) email.body)).isSome)) =
        true := by
      rw [Bool.and_eq_true]
      refine ⟨h1, ?_⟩
      simp only [Bool.or_eq_true, firstOrAll_isSome]
      tauto
    rw [if_pos hcond]
    exact ⟨_, rfl⟩

/-- C7 (counterexample): for the email with subject "itinerary" and body
`"01/01/2020 02/02/2020"`, classification passes and the date pattern
matches — twice — so the code assigns a list to `departure_date`, an
`Optional[str]` field, and the pydantic constructor raises ValidationError:
the parser neither returns a candidate (as the claim requires here) nor
returns none. -/
theorem c7_email_counterexample :
    ((strContains (pyLower "itinerary") "itinerary" = true ∧
      findall dateStep "01/01/2020 02/02/2020" =
        ["01/01/2020", "02/02/2020"]) ∧
     parse_flight_confirmation_checked
       { message_id := "e2", subject := "itinerary", sender := "s",
         received_at := 0, body := "01/01/2020 02/02/2020",
         parsed_data := none } = Except.error "ValidationError") :=
  ⟨⟨rfl, rfl⟩, rfl⟩

/-- C7 (amended): the Email Parser returns a candidate iff the lowercased
subject or body contains one of the six fixed keywords AND at least one of
the five field patterns (flight number, date, time, airport code, airline)
matched the body AND none of the four patterns feeding the declared
`Optional[str]` fields (flight number, date, time, airline) matched two or
more times; when classification and extraction succeed but one of those four
patterns has two or more matches, the pydantic constructor raises
ValidationError instead (the airport-code pattern is exempt: its keyword
argument has no model field and is dropped unvalidated); in the remaining
cases the parser returns none. -/
theorem c7_parser_amended (email : EmailMessage) :
    ((∃ c, parse_flight_confirmation_checked email = Except.ok (some c)) ↔
      ((confirmation_keywords.any fun k =>
          strContains (pyLower email.subject) k ||
          strContains (pyLower email.body) k) = true ∧
       (findall flightStep email.body ≠ [] ∨
        findall dateStep email.body ≠ [] ∨
        findall timeStep email.body ≠ [] ∨
        findall airportStepCI email.body ≠ [] ∨
        findall (altStepCI airlineAlts) email.body ≠ []) ∧
       ¬(2 ≤ (findall flightStep email.body).length ∨
         2 ≤ (findall dateStep email.body).length ∨
         2 ≤ (findall timeStep email.body).length ∨
         2 ≤ (findall (altStepCI airlineAlts) email.body).length))) ∧
    (parse_flight_confirmation_checked email =
        Except.error "ValidationError" ↔
      ((confirmation_keywords.any fun k =>
          strContains (pyLower email.subject) k ||
          strContains (pyLower email.body) k) = true ∧
       (findall flightStep email.body ≠ [] ∨
        findall dateStep email.body ≠ [] ∨
        findall timeStep email.body ≠ [] ∨
        findall airportStepCI email.body ≠ [] ∨
        findall (altStepCI airlineAlts) email.body ≠ []) ∧
       (2 ≤ (findall flightStep email.body).length ∨
        2 ≤ (findall dateStep email.body).length ∨
        2 ≤ (findall timeStep email.body).length ∨
        2 ≤ (findall (altStepCI airlineAlts) email.body).length))) := by
  have hps := parse_stage_some_iff email
  unfold parse_flight_confirmation_checked
  cases hpa : parse_flight_confirmation email with
  | none =>
    have hnab : ¬((confirmation_keywords.any fun k =>
        strContains (pyLower email.subject) k ||
        strContains (pyLower email.body) k) = true ∧
        (findall flightStep email.body ≠ [] ∨
         findall dateStep email.body ≠ [] ∨
         findall timeStep email.body ≠ [] ∨
         findall airportStepCI email.body ≠ [] ∨
         findall (altStepCI airlineAlts) email.body ≠ [])) := by
      intro hab
      obtain ⟨c, hc⟩ := hps.mpr hab
      rw [hpa] at hc
      exact Option.noConfusion hc
    constructor
    · constructor
      · rintro ⟨c, hc⟩
        exact absurd hc (by simp)
      · rintro ⟨h1, h2, _⟩
        exact absurd ⟨h1, h2⟩ hnab
    · constructor
      · intro hc
        exact absurd hc (by simp)
      · rintro ⟨h1, h2, _⟩
        exact absurd ⟨h1, h2⟩ hnab
  | some c =>
    have hab := hps.mp ⟨c, hpa⟩
    have hc2 := hpa
    rw [parse_flight_confirmation_eq] at hc2
    split at hc2
    case isFalse h => exact absurd hc2 (by simp)
    case isTrue h =>
      cases Option.some.inj hc2
      dsimp only
      by_cases hm : (isManyF (firstOrAll (findall flightStep email.body)) ||
          isManyF (firstOrAll (findall dateStep email.body)) ||
          isManyF (firstOrAll (findall timeStep email.body)) ||
          isManyF (firstOrAll (findall (altStepCI airlineAlts)
            email.body))) = true
      · rw [if_pos hm]
        simp only [Bool.or_eq_true, isManyF_firstOrAll, or_assoc] at hm
        constructor
        · constructor
          · rintro ⟨c, hc⟩
            exact absurd hc (by simp)
          · rintro ⟨_, _, h3⟩
            exact absurd hm h3
        · constructor
          · intro _
            exact ⟨hab.1, hab.2, hm⟩
          · intro _
            rfl
      · rw [if_neg hm]
        constructor
        · constructor
          · intro _
            refine ⟨hab.1, hab.2, ?_⟩
            intro hmm
            apply hm
            simp only [Bool.or_eq_true, isManyF_firstOrAll, or_assoc]
            exact hmm
          · intro _
            exact ⟨_, rfl⟩
        · constructor
          · intro hc
            exact absurd hc (by simp)
          · rintro ⟨_, _, h3⟩
            refine absurd ?_ hm
            simp only [Bool.or_eq_true, isManyF_firstOrAll, or_assoc]
            exact h3

/-- C8: for every readable document image in which the Region Detector finds
zero stamp regions, `process_passport_image` returns the empty list of
stamps and no error. -/
theorem c8_empty_regions_ok (threshold : ℚ) (img : GrayImage)
    (h : detect_stamp_regions img.contourBoxes = []) :
    process_passport_image threshold (some img) = Except.ok [] := by
  unfold process_passport_image
  simp [h]

/-- C8 (witness): a readable image whose single contour box 40x20 fails the
region filter yields `ok []` under the default threshold. -/
theorem c8_empty_regions_ok_witness :
    process_passport_image (7/10) (some ⟨[(0, 0, 40, 20)], fun _ => []⟩) =
      Except.ok [] :=
  c8_empty_regions_ok (7/10) ⟨[(0, 0, 40, 20)], fun _ => []⟩ (by rfl)

/-- C9: `parse_flight_confirmation` is a pure function of the email's
message_id, subject and body — two runs on emails agreeing on those fields
(in particular two runs on the identical email) return identical results. -/
theorem c9_pure_function (e1 e2 : EmailMessage)
    (h1 : e1.message_id = e2.message_id) (h2 : e1.subject = e2.subject)
    (h3 : e1.body = e2.body) :
    parse_flight_confirmation e1 = parse_flight_confirmation e2 := by
  unfold parse_flight_confirmation is_confirmation
  rw [h1, h2, h3]

/-- C9 (witness): two emails identical except for sender and receive time
parse identically. -/
theorem c9_pure_function_witness :
    parse_flight_confirmation
      { message_id := "m", subject := "itinerary", sender := "alice",
        received_at := 0, body := "AA 123", parsed_data := none } =
    parse_flight_confirmation
      { message_id := "m", subject := "itinerary", sender := "bob",
        received_at := 99, body := "AA 123", parsed_data := none } :=
  c9_pure_function _ _ rfl rfl rfl

/-- C10: every candidate the Email Parser returns has departure_airport,
arrival_airport, arrival_date and arrival_time all equal to none — the
parser never populates these optional model fields (the extracted 3-letter
airport code survives only in `raw_data`, since the `airport_code` keyword
argument has no corresponding model field and pydantic drops it). -/
theorem c10_airport_fields_none (email : EmailMessage)
    (c : FlightConfirmation) (h : parse_flight_confirmation email = some c) :
    c.departure_airport = none ∧ c.arrival_airport = none ∧
    c.arrival_date = none ∧ c.arrival_time = none := by
  rw [parse_flight_confirmation_eq] at h
  split at h
  · cases Option.some.inj h
    exact ⟨rfl, rfl, rfl, rfl⟩
  · exact absurd h (by simp)

/-- C10 (witness): the candidate parsed from a minimal confirmation email
has all four airport/arrival fields equal to none. -/
theorem c10_airport_fields_none_witness :
    ({ email_id := "m1", flight_number := some (FVal.one "AA 123"),
       departure_date := none, departure_time := none, arrival_date := none,
       arrival_time := none, departure_airport := none,
       arrival_airport := none, airline := none, passenger_name := none,
       booking_reference := none,
       raw_data := [("flight_number", FVal.one "AA 123")] } :
      FlightConfirmation).departure_airport = none ∧
    ({ email_id := "m1", flight_number := some (FVal.one "AA 123"),
       departure_date := none, departure_time := none, arrival_date := none,
       arrival_time := none, departure_airport := none,
       arrival_airport := none, airline := none, passenger_name := none,
       booking_reference := none,
       raw_data := [("flight_number", FVal.one "AA 123")] } :
      FlightConfirmation).arrival_airport = none ∧
    ({ email_id := "m1", flight_number := some (FVal.one "AA 123"),
       departure_date := none, departure_time := none, arrival_date := none,
       arrival_time := none, departure_airport := none,
       arrival_airport := none, airline := none, passenger_name := none,
       booking_reference := none,
       raw_data := [("flight_number", FVal.one "AA 123")] } :
      FlightConfirmation).arrival_date = none ∧
    ({ email_id := "m1", flight_number := some (FVal.one "AA 123"),
       departure_date := none, departure_time := none, arrival_date := none,
       arrival_time := none, departure_airport := none,
       arrival_airport := none, airline := none, passenger_name := none,
       booking_reference := none,
       raw_data := [("flight_number", FVal.one "AA 123")] } :
      FlightConfirmation).arrival_time = none :=
  c10_airport_fields_none
    { message_id := "m1", subject := "itinerary", sender := "s",
      received_at := 0, body := "AA 123", parsed_data := none } _ (by rfl)

end TravelCheck
